import Mathlib

/-!
Verification development for the chargeback-lambda service.

The Go source is shallowly embedded: pure functions become Lean functions,
the repository collaborator becomes an explicit store state threaded through
the use case, `time.Time` instants become natural numbers (nanoseconds since
the zero instant, so `IsZero` corresponds to `= 0`), `float64` amounts become
rationals (the code only compares amounts with zero), and Go methods that
return `error` become `Except`-valued functions or pairs carrying the
post-state.
-/

namespace ChargebackLambda

/-- Go `time.Time` modelled as a natural count of nanoseconds since the zero
instant; `t.IsZero()` corresponds to `t = 0`. -/
abbrev Time := Nat

/-- `entity.ChargebackStatus` is a Go string type. -/
abbrev ChargebackStatus := String

/-- `entity.ChargebackReason` is a Go string type. -/
abbrev ChargebackReason := String

def StatusPending : ChargebackStatus := "pending"

def StatusApproved : ChargebackStatus := "approved"

def StatusRejected : ChargebackStatus := "rejected"

def ReasonFraud : ChargebackReason := "fraud"

def ReasonAuthorizationError : ChargebackReason := "authorization_error"

def ReasonProcessingError : ChargebackReason := "processing_error"

def ReasonConsumerDispute : ChargebackReason := "consumer_dispute"

/-- The character filter applied by `maskCardNumber`:
`strings.ReplaceAll(s, " ", "")` followed by `strings.ReplaceAll(cleaned, "-", "")`
removes exactly the space and hyphen characters. -/
def keptChar (c : Char) : Bool := !(c == ' ' || c == '-')

/-- The cleaned character sequence of a card number: the input with all
space and hyphen characters removed. -/
def cleanedCard (cardNumber : String) : List Char :=
  cardNumber.data.filter keptChar

/-- `entity.maskCardNumber`: strip spaces and hyphens; if fewer than 4
characters remain return `"****"`, otherwise replace all but the last 4
characters by `'*'` (`strings.Repeat("*", len-4) + cleaned[len-4:]`). -/
def maskCardNumber (cardNumber : String) : String :=
  let cleaned := cleanedCard cardNumber
  if cleaned.length < 4 then
    "****"
  else
    String.mk (List.replicate (cleaned.length - 4) '*' ++ cleaned.drop (cleaned.length - 4))

/-- `strings.TrimSpace(s) == ""`: true exactly when every character of `s`
is whitespace (in particular for the empty string). -/
def isBlank (s : String) : Bool := s.data.all (fun c => c.isWhitespace)

/-- `entity.validReasons`, the fixed slice scanned by `isValidReason`. -/
def validReasons : List ChargebackReason :=
  [ReasonFraud, ReasonAuthorizationError, ReasonProcessingError, ReasonConsumerDispute]

/-- `entity.isValidReason`: linear scan of `validReasons` for an exact match. -/
def isValidReason (reason : ChargebackReason) : Bool :=
  validReasons.any (fun validReason => reason == validReason)

/-- `entity.CreateChargebackRequest` (the use-case level
`usecase.CreateChargebackRequest` has the identical fields and is copied
field-for-field into the entity request by `Execute`, so a single structure
embeds both). -/
structure CreateChargebackRequest where
  transactionID : String
  merchantID : String
  amount : ℚ
  currency : String
  cardNumber : String
  reason : ChargebackReason
  description : String
  transactionDate : Time
deriving Repr, DecidableEq

/-- The ordered list of violation messages accumulated by
`CreateChargebackRequest.Validate`: each of the seven checks appends its
message independently, in source order. -/
def validationErrors (req : CreateChargebackRequest) : List String :=
  (if isBlank req.transactionID then ["transaction ID is required"] else []) ++
  (if isBlank req.merchantID then ["merchant ID is required"] else []) ++
  (if req.amount ≤ 0 then ["amount must be greater than zero"] else []) ++
  (if isBlank req.currency then ["currency is required"] else []) ++
  (if isBlank req.cardNumber then ["card number is required"] else []) ++
  (if !isValidReason req.reason then ["invalid chargeback reason"] else []) ++
  (if req.transactionDate == 0 then ["transaction date is required"] else [])

/-- `CreateChargebackRequest.Validate`: aggregate all violations into one
error with prefix `"validation errors: "` and separator `"; "`. -/
def Validate (req : CreateChargebackRequest) : Except String Unit :=
  let errs := validationErrors req
  if errs.length > 0 then
    Except.error ("validation errors: " ++ String.intercalate "; " errs)
  else
    Except.ok ()

/-- `entity.Chargeback`. -/
structure Chargeback where
  id : String
  transactionID : String
  merchantID : String
  amount : ℚ
  currency : String
  cardNumber : String
  reason : ChargebackReason
  status : ChargebackStatus
  description : String
  transactionDate : Time
  chargebackDate : Time
  createdAt : Time
  updatedAt : Time
deriving Repr, DecidableEq

/-- `entity.NewChargeback`: validate, then build the record; `now` stands
for the single `time.Now()` call whose value is reused for chargeback date,
created-at and updated-at. -/
def NewChargeback (now : Time) (req : CreateChargebackRequest) : Except String Chargeback :=
  match Validate req with
  | Except.error e => Except.error e
  | Except.ok _ =>
    Except.ok
      { id := ""
        transactionID := req.transactionID
        merchantID := req.merchantID
        amount := req.amount
        currency := req.currency
        cardNumber := maskCardNumber req.cardNumber
        reason := req.reason
        status := StatusPending
        description := req.description
        transactionDate := req.transactionDate
        chargebackDate := now
        createdAt := now
        updatedAt := now }

/-- `Chargeback.Approve`: the Go method mutates the receiver and returns an
`error`; embedded as a pair of the returned error (if any) and the
post-state of the record, which is unchanged on failure. -/
def Chargeback.Approve (c : Chargeback) (now : Time) : Option String × Chargeback :=
  if c.status != StatusPending then
    (some "only pending chargebacks can be approved", c)
  else
    (none, { c with status := StatusApproved, updatedAt := now })

/-- `Chargeback.Reject`, embedded like `Chargeback.Approve`. -/
def Chargeback.Reject (c : Chargeback) (now : Time) : Option String × Chargeback :=
  if c.status != StatusPending then
    (some "only pending chargebacks can be rejected", c)
  else
    (none, { c with status := StatusRejected, updatedAt := now })

/-- `Chargeback.IsValid`: all required fields present and the amount
positive. -/
def Chargeback.IsValid (c : Chargeback) : Bool :=
  c.transactionID != "" &&
  c.merchantID != "" &&
  decide (0 < c.amount) &&
  c.currency != "" &&
  c.cardNumber != "" &&
  c.reason != "" &&
  !(c.transactionDate == 0) &&
  !(c.chargebackDate == 0)

/-- The two state-transition operations available on a chargeback record. -/
inductive Op where
  | approve
  | reject
deriving Repr, DecidableEq

/-- Apply one transition operation at a given instant, keeping the
post-state (the record is unchanged when the operation fails). -/
def applyOp (op : Op) (now : Time) (c : Chargeback) : Chargeback :=
  match op with
  | Op.approve => (c.Approve now).2
  | Op.reject => (c.Reject now).2

/-- Run a sequence of transition operations, each with its own instant. -/
def runOps (c : Chargeback) (ops : List (Op × Time)) : Chargeback :=
  ops.foldl (fun acc p => applyOp p.1 p.2 acc) c

/-- `usecase.CreateChargebackResponse`: every field of the saved record,
copied verbatim by `Execute`. -/
structure CreateChargebackResponse where
  id : String
  transactionID : String
  merchantID : String
  amount : ℚ
  currency : String
  cardNumber : String
  reason : ChargebackReason
  status : ChargebackStatus
  description : String
  transactionDate : Time
  chargebackDate : Time
  createdAt : Time
  updatedAt : Time
deriving Repr, DecidableEq

/-- The response projection built at the end of `Execute`, one field per
record field. -/
def toResponse (c : Chargeback) : CreateChargebackResponse :=
  { id := c.id
    transactionID := c.transactionID
    merchantID := c.merchantID
    amount := c.amount
    currency := c.currency
    cardNumber := c.cardNumber
    reason := c.reason
    status := c.status
    description := c.description
    transactionDate := c.transactionDate
    chargebackDate := c.chargebackDate
    createdAt := c.createdAt
    updatedAt := c.updatedAt }

/-- Modelled from the spec: the `repository.ChargebackRepository`
collaborator (its DynamoDB implementation is not part of the embedded
sources; §6 of the spec gives its contract: `findByTransactionID(id) →
record|absent`, `save(record) → assigns identifier, error|success`). The
store holds its records, the identifier it will assign on the next
successful save, and optional injected failures for the two operations,
so both the success paths and the infrastructure-error paths of the use
case are representable. -/
structure Store where
  records : List Chargeback
  nextId : String
  findErr : Option String
  saveErr : Option String
deriving Repr, DecidableEq

/-- The collaborator lookup used by `Execute`
(`chargebackRepo.FindByTransactionID`). -/
def Store.findByTransactionID (s : Store) (tx : String) :
    Except String (Option Chargeback) :=
  match s.findErr with
  | some e => Except.error e
  | none => Except.ok (s.records.find? (fun c => c.transactionID == tx))

/-- The collaborator write used by `Execute` (`chargebackRepo.Save`): on
success the store assigns the identifier to the record (observed in Go via
mutation of the passed record) and appends it. -/
def Store.save (s : Store) (c : Chargeback) : Except String (Chargeback × Store) :=
  match s.saveErr with
  | some e => Except.error e
  | none =>
    let saved := { c with id := s.nextId }
    Except.ok (saved, { s with records := s.records ++ [saved] })

/-- `CreateChargebackUseCase.Execute`: duplicate check, entity construction,
save, response projection, each failure wrapped exactly as the Go
`fmt.Errorf` calls render it; the returned store is the post-state (equal
to the input store whenever nothing was written). -/
def Execute (now : Time) (s : Store) (req : CreateChargebackRequest) :
    Except String CreateChargebackResponse × Store :=
  match s.findByTransactionID req.transactionID with
  | Except.error e =>
    (Except.error ("failed to check existing chargeback: " ++ e), s)
  | Except.ok (some _) =>
    (Except.error ("chargeback already exists for transaction " ++ req.transactionID), s)
  | Except.ok none =>
    match NewChargeback now req with
    | Except.error e =>
      (Except.error ("failed to create chargeback entity: " ++ e), s)
    | Except.ok cb =>
      match s.save cb with
      | Except.error e =>
        (Except.error ("failed to save chargeback: " ++ e), s)
      | Except.ok (saved, s2) => (Except.ok (toResponse saved), s2)

/-- `strings.Contains(s, pat)`: `pat` occurs as a contiguous substring of
`s`. -/
def containsSubstr (s pat : String) : Bool := decide (pat.data <:+: s.data)

/-- The status-code mapping of `handleCreateChargeback` in
`cmd/lambda/main.go`, as a function of the use-case outcome: success is
answered with 201, and a failure is answered with 400 exactly when its
message contains the substring `"validation"`, with 500 otherwise (JSON
body marshalling, which cannot fail on these records, is not embedded). -/
def handleCreateChargebackStatus (result : Except String CreateChargebackResponse) : Nat :=
  match result with
  | Except.ok _ => 201
  | Except.error e => if containsSubstr e "validation" then 400 else 500

/-! ### Helper lemmas about the masking transform -/

/-- In the long case the mask is `(n-4)` stars followed by the last 4
cleaned characters. -/
theorem maskCardNumber_long_form (s : String) (h : ¬ (cleanedCard s).length < 4) :
    maskCardNumber s =
      String.mk (List.replicate ((cleanedCard s).length - 4) '*' ++
        (cleanedCard s).drop ((cleanedCard s).length - 4)) := by
  unfold maskCardNumber
  simp [h]

/-- Every character of a cleaned card sequence survives the cleaning
filter. -/
theorem keptChar_of_mem_cleanedCard (s : String) (a : Char) (ha : a ∈ cleanedCard s) :
    keptChar a = true :=
  List.of_mem_filter ha

/-- Cleaning the output of the mask changes nothing: the output consists of
stars and already-cleaned characters only. -/
theorem cleanedCard_maskCardNumber (s : String) (h : ¬ (cleanedCard s).length < 4) :
    cleanedCard (maskCardNumber s) =
      List.replicate ((cleanedCard s).length - 4) '*' ++
        (cleanedCard s).drop ((cleanedCard s).length - 4) := by
  rw [maskCardNumber_long_form s h]
  show List.filter keptChar _ = _
  rw [List.filter_append]
  congr 1
  · exact List.filter_eq_self.mpr fun a ha => by rw [List.eq_of_mem_replicate ha]; decide
  · exact List.filter_eq_self.mpr fun a ha =>
      keptChar_of_mem_cleanedCard s a (List.mem_of_mem_drop ha)

/-- The mask keeps the cleaned length in the long case. -/
theorem length_cleanedCard_maskCardNumber (s : String) (h : ¬ (cleanedCard s).length < 4) :
    (cleanedCard (maskCardNumber s)).length = (cleanedCard s).length := by
  rw [cleanedCard_maskCardNumber s h]
  simp only [List.length_append, List.length_replicate, List.length_drop]
  omega

/-! ### Claim C2 (corrected) -/

/-- C2 counterexample: the claim says every input whose cleaned form has
length ≤ 4 is masked to `"****"`, but for the input `"1234"` (cleaned
length exactly 4) `maskCardNumber` returns `"1234"` unmasked, as the
code's own test expects. -/
theorem maskCardNumber_four_counterexample :
    (cleanedCard "1234").length ≤ 4 ∧
    maskCardNumber "1234" = "1234" ∧
    maskCardNumber "1234" ≠ "****" := by
  refine ⟨by decide, by decide, by decide⟩

/-- C2 (amended): for every input whose cleaned form has length strictly
less than 4 (including the empty string) the mask is exactly `"****"`; at
cleaned length exactly 4 the cleaned input itself is returned, unmasked. -/
theorem maskCardNumber_short_mask (s : String) :
    ((cleanedCard s).length < 4 → maskCardNumber s = "****") ∧
    ((cleanedCard s).length = 4 → maskCardNumber s = String.mk (cleanedCard s)) := by
  constructor
  · intro h
    unfold maskCardNumber
    simp [h]
  · intro h
    rw [maskCardNumber_long_form s (by omega)]
    simp [h]

/-- C2 witness: evaluating the amended claim at `"12-3"` (cleaned length 3)
and at `"12 34"` (cleaned length 4). -/
theorem maskCardNumber_short_mask_witness :
    maskCardNumber "12-3" = "****" ∧ maskCardNumber "12 34" = String.mk (cleanedCard "12 34") :=
  ⟨(maskCardNumber_short_mask "12-3").1 (by decide),
    (maskCardNumber_short_mask "12 34").2 (by decide)⟩

/-! ### Claim C6 (confirmed) -/

/-- C6: for cleaned length `n > 4` the mask has length `n`, its first
`n - 4` characters are all the mask character `'*'`, and its last 4
characters are the last 4 characters of the cleaned input, unchanged. -/
theorem maskCardNumber_long_shape (s : String) (h : 4 < (cleanedCard s).length) :
    (maskCardNumber s).length = (cleanedCard s).length ∧
    (maskCardNumber s).data.take ((cleanedCard s).length - 4) =
      List.replicate ((cleanedCard s).length - 4) '*' ∧
    (maskCardNumber s).data.drop ((cleanedCard s).length - 4) =
      (cleanedCard s).drop ((cleanedCard s).length - 4) := by
  have hn : ¬ (cleanedCard s).length < 4 := by omega
  rw [maskCardNumber_long_form s hn]
  refine ⟨?_, ?_, ?_⟩
  · show (List.replicate _ _ ++ _).length = _
    simp only [List.length_append, List.length_replicate, List.length_drop]
    omega
  · show (List.replicate _ _ ++ _).take _ = _
    simp
  · show (List.replicate _ _ ++ _).drop _ = _
    simp

/-- C6 witness: the shape properties evaluated on the 16-digit card number
from the code's tests. -/
theorem maskCardNumber_long_shape_witness :
    (maskCardNumber "1234567890123456").length = (cleanedCard "1234567890123456").length ∧
    (maskCardNumber "1234567890123456").data.take ((cleanedCard "1234567890123456").length - 4) =
      List.replicate ((cleanedCard "1234567890123456").length - 4) '*' ∧
    (maskCardNumber "1234567890123456").data.drop ((cleanedCard "1234567890123456").length - 4) =
      (cleanedCard "1234567890123456").drop ((cleanedCard "1234567890123456").length - 4) :=
  maskCardNumber_long_shape "1234567890123456" (by decide)

/-! ### Claim C9 (confirmed) -/

/-- C9: the masking function is idempotent — masking an already-masked
value returns it unchanged. -/
theorem maskCardNumber_idempotent (s : String) :
    maskCardNumber (maskCardNumber s) = maskCardNumber s := by
  by_cases h : (cleanedCard s).length < 4
  · have hs : maskCardNumber s = "****" := by
      unfold maskCardNumber
      simp [h]
    rw [hs]
    decide
  · have hclean := cleanedCard_maskCardNumber s h
    have hlen := length_cleanedCard_maskCardNumber s h
    have houter : ¬ (cleanedCard (maskCardNumber s)).length < 4 := by omega
    rw [maskCardNumber_long_form (maskCardNumber s) houter, hlen, hclean]
    rw [maskCardNumber_long_form s h]
    congr 1
    simp

/-! ### Helper lemmas about validation -/

/-- The seven validation rules in the order the source checks them: each
pair is the rule's violation condition and its message. -/
def ruleTable (req : CreateChargebackRequest) : List (Bool × String) :=
  [(isBlank req.transactionID, "transaction ID is required"),
   (isBlank req.merchantID, "merchant ID is required"),
   (decide (req.amount ≤ 0), "amount must be greater than zero"),
   (isBlank req.currency, "currency is required"),
   (isBlank req.cardNumber, "card number is required"),
   (!isValidReason req.reason, "invalid chargeback reason"),
   (req.transactionDate == 0, "transaction date is required")]

/-- The accumulated violation list is exactly the messages of the violated
rules of the table, in table order: every rule is evaluated, none
short-circuits another. -/
theorem validationErrors_eq_ruleTable (req : CreateChargebackRequest) :
    validationErrors req = ((ruleTable req).filter (fun p => p.1)).map (fun p => p.2) := by
  rcases Bool.eq_false_or_eq_true (isBlank req.transactionID) with h1 | h1 <;>
    rcases Bool.eq_false_or_eq_true (isBlank req.merchantID) with h2 | h2 <;>
    rcases Bool.eq_false_or_eq_true (isBlank req.currency) with h4 | h4 <;>
    rcases Bool.eq_false_or_eq_true (isBlank req.cardNumber) with h5 | h5 <;>
    rcases Bool.eq_false_or_eq_true (isValidReason req.reason) with h6 | h6 <;>
    rcases Bool.eq_false_or_eq_true (req.transactionDate == 0) with h7 | h7 <;>
    by_cases h3 : req.amount ≤ 0 <;>
    simp [validationErrors, ruleTable, h1, h2, h3, h4, h5, h6, h7]

/-- Validation succeeds exactly when the violation list is empty. -/
theorem validate_ok_iff_nil (req : CreateChargebackRequest) :
    Validate req = Except.ok () ↔ validationErrors req = [] := by
  unfold Validate
  by_cases h : (validationErrors req).length > 0
  · rw [if_pos h]
    constructor
    · intro hc
      exact absurd hc (by simp)
    · intro hc
      rw [hc] at h
      simp at h
  · rw [if_neg h]
    simp only [Nat.not_lt, Nat.le_zero] at h
    simp [List.eq_nil_of_length_eq_zero h]

/-- Validation succeeds exactly when all seven rules pass. -/
theorem validate_ok_iff (req : CreateChargebackRequest) :
    Validate req = Except.ok () ↔
      (isBlank req.transactionID = false ∧ isBlank req.merchantID = false ∧
        0 < req.amount ∧ isBlank req.currency = false ∧ isBlank req.cardNumber = false ∧
        isValidReason req.reason = true ∧ req.transactionDate ≠ 0) := by
  rw [validate_ok_iff_nil, validationErrors]
  simp [List.append_eq_nil, ite_eq_right_iff, not_le, Bool.not_eq_true, beq_iff_eq]

/-- A non-empty violation list yields the single aggregated error. -/
theorem validate_error_eq (req : CreateChargebackRequest) (h : validationErrors req ≠ []) :
    Validate req =
      Except.error ("validation errors: " ++ String.intercalate "; " (validationErrors req)) := by
  unfold Validate
  rw [if_pos (List.length_pos.mpr h)]

/-- Every validation failure message carries the aggregated shape. -/
theorem validate_error_shape (req : CreateChargebackRequest) (e : String)
    (h : Validate req = Except.error e) :
    e = "validation errors: " ++ String.intercalate "; " (validationErrors req) := by
  unfold Validate at h
  by_cases hl : (validationErrors req).length > 0
  · rw [if_pos hl] at h
    injection h with h2
    exact h2.symm
  · rw [if_neg hl] at h
    exact absurd h (by simp)

/-- A string all of whose characters are non-whitespace in at least one
position, i.e. not blank, is in particular non-empty. -/
theorem ne_empty_of_isBlank_false (s : String) (h : isBlank s = false) : s ≠ "" := by
  intro he
  rw [he] at h
  simp [isBlank] at h

/-- Every member of the reason enumeration is a non-empty string. -/
theorem isValidReason_ne_empty (r : ChargebackReason) (h : isValidReason r = true) : r ≠ "" := by
  simp [isValidReason, validReasons, ReasonFraud, ReasonAuthorizationError,
    ReasonProcessingError, ReasonConsumerDispute] at h
  rcases h with h | h | h | h <;> rw [h] <;> decide

/-- The masking function never returns the empty string. -/
theorem maskCardNumber_ne_empty (s : String) : maskCardNumber s ≠ "" := by
  by_cases h : (cleanedCard s).length < 4
  · have hs : maskCardNumber s = "****" := by
      unfold maskCardNumber
      simp [h]
    rw [hs]
    decide
  · rw [maskCardNumber_long_form s h]
    intro he
    have hl : (List.replicate ((cleanedCard s).length - 4) '*' ++
        (cleanedCard s).drop ((cleanedCard s).length - 4)).length = 0 :=
      congrArg String.length he
    simp only [List.length_append, List.length_replicate, List.length_drop] at hl
    omega

/-! ### Concrete fixtures used by witnesses and counterexamples -/

/-- A fully valid creation request (the values of the code's own tests,
with the amount and date rendered in the embedding's types). -/
def reqValid : CreateChargebackRequest :=
  { transactionID := "txn-12345"
    merchantID := "merchant-67890"
    amount := 99
    currency := "USD"
    cardNumber := "1234567890123456"
    reason := ReasonFraud
    description := "Suspicious transaction"
    transactionDate := 1673778600 }

/-- A request violating all seven validation rules. -/
def reqInvalid : CreateChargebackRequest :=
  { transactionID := ""
    merchantID := ""
    amount := 0
    currency := ""
    cardNumber := ""
    reason := "invalid"
    description := ""
    transactionDate := 0 }

/-- A pending chargeback record. -/
def cbPending : Chargeback :=
  { id := "cb-1"
    transactionID := "tx-1"
    merchantID := "m-1"
    amount := 150
    currency := "USD"
    cardNumber := "****1111"
    reason := ReasonFraud
    status := StatusPending
    description := ""
    transactionDate := 10
    chargebackDate := 20
    createdAt := 20
    updatedAt := 20 }

/-- An already-approved chargeback record. -/
def cbApproved : Chargeback := { cbPending with status := StatusApproved }

/-- The record `NewChargeback 42 reqValid` builds. -/
def cbBuilt : Chargeback :=
  { id := ""
    transactionID := "txn-12345"
    merchantID := "merchant-67890"
    amount := 99
    currency := "USD"
    cardNumber := "************3456"
    reason := ReasonFraud
    status := StatusPending
    description := "Suspicious transaction"
    transactionDate := 1673778600
    chargebackDate := 42
    createdAt := 42
    updatedAt := 42 }

/-- A store already holding a chargeback for transaction `"tx-1"`. -/
def storeDup : Store :=
  { records := [cbPending], nextId := "cb-2", findErr := none, saveErr := none }

/-- An empty, failure-free store. -/
def storeEmpty : Store :=
  { records := [], nextId := "cb-1", findErr := none, saveErr := none }

/-- A creation request for the transaction already present in `storeDup`. -/
def reqDup : CreateChargebackRequest :=
  { transactionID := "tx-1"
    merchantID := "merchant-789"
    amount := 150
    currency := "USD"
    cardNumber := "4111111111111111"
    reason := ReasonFraud
    description := ""
    transactionDate := 10 }

/-! ### Claim C3 (confirmed) -/

/-- C3: validation evaluates all seven rules without short-circuiting — the
violation list is exactly the messages of the violated rules of the ordered
rule table; it succeeds exactly when every rule passes, and otherwise fails
with the single error `"validation errors: "` followed by the violated
rules' messages joined with `"; "` in checking order. -/
theorem validate_aggregates_all_rules (req : CreateChargebackRequest) :
    validationErrors req = ((ruleTable req).filter (fun p => p.1)).map (fun p => p.2) ∧
    (Validate req = Except.ok () ↔
      (isBlank req.transactionID = false ∧ isBlank req.merchantID = false ∧
        0 < req.amount ∧ isBlank req.currency = false ∧ isBlank req.cardNumber = false ∧
        isValidReason req.reason = true ∧ req.transactionDate ≠ 0)) ∧
    (validationErrors req ≠ [] →
      Validate req =
        Except.error ("validation errors: " ++ String.intercalate "; " (validationErrors req))) :=
  ⟨validationErrors_eq_ruleTable req, validate_ok_iff req, validate_error_eq req⟩

/-- C3 witness: the aggregated failure evaluated on a request violating all
seven rules. -/
theorem validate_aggregates_all_rules_witness :
    Validate reqInvalid =
      Except.error
        ("validation errors: " ++ String.intercalate "; " (validationErrors reqInvalid)) :=
  (validate_aggregates_all_rules reqInvalid).2.2 (by decide)

/-! ### Claim C4 (confirmed) -/

/-- C4: the entity factory propagates validation failures unchanged and
produces no entity; on success it returns a record whose pass-through
fields equal the request's, whose card number is masked, whose status is
`"pending"`, whose identifier is empty, and whose chargeback-date,
created-at and updated-at all equal the same instant. -/
theorem newChargeback_builds_record (now : Time) (req : CreateChargebackRequest) :
    (∀ e, Validate req = Except.error e → NewChargeback now req = Except.error e) ∧
    (Validate req = Except.ok () →
      ∃ c, NewChargeback now req = Except.ok c ∧
        c.transactionID = req.transactionID ∧ c.merchantID = req.merchantID ∧
        c.amount = req.amount ∧ c.currency = req.currency ∧ c.reason = req.reason ∧
        c.description = req.description ∧ c.transactionDate = req.transactionDate ∧
        c.cardNumber = maskCardNumber req.cardNumber ∧ c.status = StatusPending ∧
        c.id = "" ∧ c.chargebackDate = now ∧ c.createdAt = now ∧ c.updatedAt = now) := by
  constructor
  · intro e he
    unfold NewChargeback
    rw [he]
  · intro h
    unfold NewChargeback
    rw [h]
    exact ⟨_, rfl, rfl, rfl, rfl, rfl, rfl, rfl, rfl, rfl, rfl, rfl, rfl, rfl, rfl⟩

/-- C4 witness: the factory evaluated on a valid request at instant 42. -/
theorem newChargeback_builds_record_witness :
    ∃ c, NewChargeback 42 reqValid = Except.ok c ∧
      c.transactionID = reqValid.transactionID ∧ c.merchantID = reqValid.merchantID ∧
      c.amount = reqValid.amount ∧ c.currency = reqValid.currency ∧
      c.reason = reqValid.reason ∧ c.description = reqValid.description ∧
      c.transactionDate = reqValid.transactionDate ∧
      c.cardNumber = maskCardNumber reqValid.cardNumber ∧ c.status = StatusPending ∧
      c.id = "" ∧ c.chargebackDate = 42 ∧ c.createdAt = 42 ∧ c.updatedAt = 42 :=
  (newChargeback_builds_record 42 reqValid).2 rfl

/-! ### Claim C5 (confirmed) -/

/-- C5: Approve succeeds exactly on pending records, setting status to
`"approved"` and refreshing updated-at, and otherwise fails with the
message `"only pending chargebacks can be approved"` leaving the record
unchanged; Reject is symmetric with `"rejected"`. -/
theorem approve_reject_pending_only (c : Chargeback) (now : Time) :
    (c.status = StatusPending →
      c.Approve now = (none, { c with status := StatusApproved, updatedAt := now }) ∧
      c.Reject now = (none, { c with status := StatusRejected, updatedAt := now })) ∧
    (c.status ≠ StatusPending →
      c.Approve now = (some "only pending chargebacks can be approved", c) ∧
      c.Reject now = (some "only pending chargebacks can be rejected", c)) := by
  constructor
  · intro h
    constructor <;> simp [Chargeback.Approve, Chargeback.Reject, h]
  · intro h
    constructor <;> simp [Chargeback.Approve, Chargeback.Reject, bne_iff_ne, h]

/-- C5 witness: approving a pending record and rejecting an approved one. -/
theorem approve_reject_pending_only_witness :
    cbPending.Approve 30 = (none, { cbPending with status := StatusApproved, updatedAt := 30 }) ∧
    cbApproved.Reject 31 = (some "only pending chargebacks can be rejected", cbApproved) :=
  ⟨((approve_reject_pending_only cbPending 30).1 rfl).1,
    ((approve_reject_pending_only cbApproved 31).2 (by decide)).2⟩

/-! ### Claim C7 (confirmed) -/

/-- A transition operation applied to a non-pending record fails and leaves
the record unchanged. -/
theorem applyOp_of_ne_pending (op : Op) (now : Time) (c : Chargeback)
    (h : c.status ≠ StatusPending) : applyOp op now c = c := by
  cases op <;> simp [applyOp, Chargeback.Approve, Chargeback.Reject, bne_iff_ne, h]

/-- No sequence of transition operations changes a non-pending record. -/
theorem runOps_of_ne_pending (ops : List (Op × Time)) (c : Chargeback)
    (h : c.status ≠ StatusPending) : runOps c ops = c := by
  induction ops generalizing c with
  | nil => rfl
  | cons p ops ih =>
    show runOps (applyOp p.1 p.2 c) ops = c
    rw [applyOp_of_ne_pending p.1 p.2 c h]
    exact ih c h

/-- C7: `"approved"` and `"rejected"` are terminal — no sequence of Approve
and Reject calls ever changes their status; moreover a single operation
either leaves the status unchanged or moves it from `"pending"` to
`"approved"` or `"rejected"`. -/
theorem status_transitions_terminal (c : Chargeback) :
    ((c.status = StatusApproved ∨ c.status = StatusRejected) →
      ∀ ops, (runOps c ops).status = c.status) ∧
    (∀ op now, (applyOp op now c).status = c.status ∨
      (c.status = StatusPending ∧
        ((applyOp op now c).status = StatusApproved ∨
          (applyOp op now c).status = StatusRejected))) := by
  constructor
  · intro h ops
    have hne : c.status ≠ StatusPending := by
      rcases h with h | h <;> rw [h] <;> decide
    rw [runOps_of_ne_pending ops c hne]
  · intro op now
    by_cases hp : c.status = StatusPending
    · right
      refine ⟨hp, ?_⟩
      cases op
      · left
        simp [applyOp, Chargeback.Approve, hp]
      · right
        simp [applyOp, Chargeback.Reject, hp]
    · left
      rw [applyOp_of_ne_pending op now c hp]

/-- C7 witness: a reject-then-approve sequence on an approved record leaves
its status untouched. -/
theorem status_transitions_terminal_witness :
    (runOps cbApproved [(Op.reject, 50), (Op.approve, 60)]).status = cbApproved.status :=
  (status_transitions_terminal cbApproved).1 (Or.inl rfl) [(Op.reject, 50), (Op.approve, 60)]

/-! ### Claim C10 (confirmed) -/

/-- C10: a record built by the entity factory always passes the entity's
own validity check (`now ≠ 0` reflects that `time.Now()` is never the zero
instant). -/
theorem newChargeback_isValid (now : Time) (req : CreateChargebackRequest) (c : Chargeback)
    (hc : NewChargeback now req = Except.ok c) (hnow : now ≠ 0) :
    c.IsValid = true := by
  unfold NewChargeback at hc
  cases hv : Validate req with
  | error e =>
    rw [hv] at hc
    exact absurd hc (by simp)
  | ok u =>
    rw [hv] at hc
    injection hc with hc2
    obtain ⟨h1, h2, h3, h4, h5, h6, h7⟩ := (validate_ok_iff req).mp (by cases u; exact hv)
    subst hc2
    simp only [Chargeback.IsValid, Bool.and_eq_true, bne_iff_ne, ne_eq, decide_eq_true_eq,
      Bool.not_eq_true', beq_eq_false_iff_ne]
    exact ⟨⟨⟨⟨⟨⟨⟨ne_empty_of_isBlank_false _ h1, ne_empty_of_isBlank_false _ h2⟩, h3⟩,
      ne_empty_of_isBlank_false _ h4⟩, maskCardNumber_ne_empty _⟩,
      isValidReason_ne_empty _ h6⟩, h7⟩, hnow⟩

/-- C10 witness: the concrete record built from the valid request passes
`IsValid`. -/
theorem newChargeback_isValid_witness : cbBuilt.IsValid = true :=
  newChargeback_isValid 42 reqValid cbBuilt rfl (by decide)

/-! ### Claim C1 (confirmed) -/

/-- C1: when the lookup finds an existing record for the transaction, the
use case fails with exactly `"chargeback already exists for transaction "`
followed by the transaction identifier, and the store is returned
untouched — no record is constructed or written. -/
theorem execute_duplicate_conflict (now : Time) (s : Store) (req : CreateChargebackRequest)
    (c : Chargeback) (h : s.findByTransactionID req.transactionID = Except.ok (some c)) :
    Execute now s req =
      (Except.error ("chargeback already exists for transaction " ++ req.transactionID), s) := by
  unfold Execute
  rw [h]

/-- C1 witness: the duplicate failure evaluated on a store already holding
transaction `"tx-1"`. -/
theorem execute_duplicate_conflict_witness :
    Execute 7 storeDup reqDup =
      (Except.error "chargeback already exists for transaction tx-1", storeDup) :=
  execute_duplicate_conflict 7 storeDup reqDup cbPending rfl

/-! ### Claim C8 (corrected) -/

/-- An occurrence of a pattern that begins with a character absent from `a`
cannot start inside `a`, so the pattern occurs in `a ++ b` only if it
occurs in `b`. -/
theorem not_infix_append_of_head (pat b : List Char) (c0 : Char)
    (hhead : pat.head? = some c0) (hb : ¬ pat <:+: b) :
    ∀ a : List Char, c0 ∉ a → ¬ pat <:+: a ++ b := by
  intro a
  induction a with
  | nil =>
    intro _ h
    exact hb h
  | cons x a ih =>
    intro ha h
    rw [List.cons_append, List.infix_cons_iff] at h
    rcases h with h | h
    · rcases h with ⟨t, ht⟩
      cases pat with
      | nil => simp at hhead
      | cons p ps =>
        have hp : p = c0 := by simpa using hhead
        rw [List.cons_append] at ht
        injection ht with hx _
        refine ha ?_
        rw [hp.symm.trans hx]
        exact List.mem_cons_self x a
    · exact ih (fun hm => ha (List.mem_cons_of_mem x hm)) h

/-- The wrapped entity-construction failure always contains the substring
`"validation"`. -/
theorem contains_validation_of_wrap (rest : String) :
    containsSubstr
      ("failed to create chargeback entity: " ++ ("validation errors: " ++ rest))
      "validation" = true := by
  apply decide_eq_true
  rw [String.data_append, String.data_append]
  have hpre : "validation".data <+: "validation errors: ".data := by decide
  obtain ⟨t, ht⟩ := hpre
  exact ⟨"failed to create chargeback entity: ".data, t ++ rest.data, by rw [← ht]; simp⟩

/-- The duplicate-transaction message contains `"validation"` only if the
transaction identifier itself does: the fixed prefix contains no `'v'`. -/
theorem contains_validation_duplicate (tx : String)
    (h : containsSubstr tx "validation" = false) :
    containsSubstr ("chargeback already exists for transaction " ++ tx) "validation" = false := by
  apply decide_eq_false
  rw [String.data_append]
  exact not_infix_append_of_head "validation".data tx.data 'v' (by decide)
    (of_decide_eq_false h) "chargeback already exists for transaction ".data (by decide)

/-- C8 counterexample: with a store already holding transaction `"tx-1"`,
the cloud-function adapter answers the duplicate-transaction business error
with status 500, not 400 and not 409 as the claim states, because the
duplicate message does not contain the substring `"validation"`. -/
theorem lambda_duplicate_status_counterexample :
    (Execute 7 storeDup reqDup).1 =
      Except.error "chargeback already exists for transaction tx-1" ∧
    handleCreateChargebackStatus (Execute 7 storeDup reqDup).1 = 500 ∧
    ¬(handleCreateChargebackStatus (Execute 7 storeDup reqDup).1 = 400 ∨
      handleCreateChargebackStatus (Execute 7 storeDup reqDup).1 = 409) := by
  refine ⟨rfl, by decide, by decide⟩

/-- C8 (amended): the adapter distinguishes failures only by whether the
message contains the substring `"validation"` — success yields 201,
validation failures yield 400 (their wrapped message always contains
`"validation"`), the duplicate-transaction business error yields 500
whenever the transaction identifier does not itself contain
`"validation"`, and any other failure whose message lacks `"validation"`
(in particular store read/write errors with ordinary messages) also
yields 500. -/
theorem lambda_status_mapping (now : Time) (s : Store) (req : CreateChargebackRequest) :
    ((Execute now s req).1.isOk = true →
      handleCreateChargebackStatus (Execute now s req).1 = 201) ∧
    (∀ e, s.findByTransactionID req.transactionID = Except.ok none →
      Validate req = Except.error e →
      handleCreateChargebackStatus (Execute now s req).1 = 400) ∧
    (∀ c, s.findByTransactionID req.transactionID = Except.ok (some c) →
      containsSubstr req.transactionID "validation" = false →
      handleCreateChargebackStatus (Execute now s req).1 = 500) ∧
    (∀ e, (Execute now s req).1 = Except.error e →
      containsSubstr e "validation" = false →
      handleCreateChargebackStatus (Execute now s req).1 = 500) := by
  refine ⟨?_, ?_, ?_, ?_⟩
  · intro h
    cases hres : (Execute now s req).1 with
    | ok r => simp [handleCreateChargebackStatus, hres]
    | error e =>
      rw [hres] at h
      simp [Except.isOk, Except.toBool] at h
  · intro e hfind hval
    have hnew : NewChargeback now req = Except.error e := by
      unfold NewChargeback
      rw [hval]
    have hexec : Execute now s req =
        (Except.error ("failed to create chargeback entity: " ++ e), s) := by
      unfold Execute
      rw [hfind, hnew]
    rw [hexec, validate_error_shape req e hval]
    simp [handleCreateChargebackStatus, contains_validation_of_wrap]
  · intro c hfind hcontains
    have hexec : Execute now s req =
        (Except.error ("chargeback already exists for transaction " ++ req.transactionID), s) := by
      unfold Execute
      rw [hfind]
    rw [hexec]
    simp [handleCreateChargebackStatus, contains_validation_duplicate _ hcontains]
  · intro e hres hcontains
    rw [hres]
    simp [handleCreateChargebackStatus, hcontains]

/-- C8 witness: a request violating every rule against an empty store is
answered with status 400. -/
theorem lambda_status_mapping_witness :
    handleCreateChargebackStatus (Execute 7 storeEmpty reqInvalid).1 = 400 :=
  (lambda_status_mapping 7 storeEmpty reqInvalid).2.1 _ rfl rfl

end ChargebackLambda
